import Mathlib

/-!
Verification of the echo-desktop copy-trading core against its
natural-language specification.

The TypeScript sources are shallowly embedded:

* `decimal.js` values (arbitrary-precision decimals) are modelled as `Rat`.
  All additions, subtractions and comparisons appearing in the embedded code
  stay far below the 20-significant-digit precision at which decimal.js
  rounds, so exact rational arithmetic is a faithful model of them.
* JavaScript `number` values are IEEE-754 binary64 doubles.  The exact
  rational value of a double is modelled as `Rat`; the rounding a `*`
  performs is modelled by `fl64` (round to nearest, ties to even, 53-bit
  significand; the functions below cover the normal range of binary64,
  which is where every quantity of this program lives).
* `BigInt` values are modelled as `Int`, together with a model of the
  `BigInt(string)` conversion and of `BigInt.prototype.toString`.
* Stateful classes become explicit state records; methods become functions
  from state (plus an environment for RPC/HTTP effects) to state.
  Fallible code returns `Except String` or pairs a result with an error
  option; external calls are recorded in an action trace where a claim
  is about which endpoints are reached.

Rational arithmetic is written with bespoke `q*` operations built on
`mkRat` so that every definition evaluates inside the kernel.
-/

/-! ## Kernel-evaluable rational arithmetic -/

def qadd (a b : Rat) : Rat := mkRat (a.num * b.den + b.num * a.den) (a.den * b.den)

def qneg (a : Rat) : Rat := mkRat (-a.num) a.den

def qsub (a b : Rat) : Rat := qadd a (qneg b)

def qmul (a b : Rat) : Rat := mkRat (a.num * b.num) (a.den * b.den)

def qinv (a : Rat) : Rat := mkRat (if a.num < 0 then -(a.den : Int) else (a.den : Int)) a.num.natAbs

def qdiv (a b : Rat) : Rat := qmul a (qinv b)

def qabs (a : Rat) : Rat := if a.num < 0 then qneg a else a

/-! ## IEEE-754 binary64 rounding, on exact rationals

`normUp`/`normDown` scale a positive rational into the binade
`[2^52, 2^53)` by exact doubling/halving; the fuel `1200` covers the
whole binary64 exponent range.  `roundTiesEven` then rounds the scaled
significand to an integer, giving round-to-nearest-even.
-/

def normUp : Nat → Rat → Rat × Nat
  | 0, a => (a, 0)
  | fuel+1, a =>
      if a < (4503599627370496 : Rat) then
        let p := normUp fuel (mkRat (2 * a.num) a.den)
        (p.1, p.2 + 1)
      else (a, 0)

def normDown : Nat → Rat → Rat × Nat
  | 0, a => (a, 0)
  | fuel+1, a =>
      if (9007199254740992 : Rat) ≤ a then
        let p := normDown fuel (mkRat a.num (2 * a.den))
        (p.1, p.2 + 1)
      else (a, 0)

def roundTiesEven (m : Rat) : Int :=
  let f := m.floor
  let r := qsub m (mkRat f 1)
  if mkRat 1 2 < r then f + 1
  else if r < mkRat 1 2 then f
  else if f % 2 = 0 then f else f + 1

def fl64 (q : Rat) : Rat :=
  if q = 0 then 0
  else
    let a := qabs q
    let u := normUp 1200 a
    let d := normDown 1200 u.1
    let n := roundTiesEven d.1
    let mag := mkRat (n * (2 ^ d.2 : Nat)) (2 ^ u.2)
    if q < 0 then qneg mag else mag

/-- Models JavaScript `Math.floor` applied to a double: the floor of a
double in the range of this program is itself exactly representable. -/
def jsMathFloor (q : Rat) : Int := q.floor

/-! ## JavaScript string helpers -/

def isJsSpace (c : Char) : Bool :=
  c = ' ' || c = '\t' || c = '\n' || c = '\r' || c = '\x0b' || c = '\x0c'

def trimChars (l : List Char) : List Char :=
  ((l.dropWhile isJsSpace).reverse.dropWhile isJsSpace).reverse

/-- Models `String.prototype.trim` (the addresses and keys of this program
are ASCII, where the JS and ASCII whitespace sets agree). -/
def jsTrim (s : String) : String := String.mk (trimChars s.data)

def splitCommaAux : List Char → List Char → List (List Char)
  | [], acc => [acc.reverse]
  | ',' :: rest, acc => acc.reverse :: splitCommaAux rest []
  | c :: rest, acc => splitCommaAux rest (c :: acc)

/-- Models `s.split(",")`. -/
def splitComma (s : String) : List (List Char) := splitCommaAux s.data []

/-- Models `String.prototype.slice(0, n)` on the ASCII strings of this
program. -/
def jsSlice0 (s : String) (n : Nat) : String := String.mk (s.data.take n)

/-! ## Model of `BigInt(string)` and `BigInt.prototype.toString` -/

def decDigitVal (c : Char) : Option Nat :=
  if '0' ≤ c && c ≤ '9' then some (c.toNat - 48) else none

def parseDecAux : List Char → Nat → Option Nat
  | [], acc => some acc
  | c :: rest, acc =>
      match decDigitVal c with
      | some d => parseDecAux rest (acc * 10 + d)
      | none => none

/-- Digit run of a decimal `BigInt` literal; empty runs are rejected. -/
def parseDecDigits : List Char → Option Nat
  | [] => none
  | l => parseDecAux l 0

def hexDigitVal (c : Char) : Option Nat :=
  if '0' ≤ c && c ≤ '9' then some (c.toNat - 48)
  else if 'a' ≤ c && c ≤ 'f' then some (c.toNat - 87)
  else if 'A' ≤ c && c ≤ 'F' then some (c.toNat - 55)
  else none

def parseBaseAux (base : Nat) (dv : Char → Option Nat) : List Char → Nat → Option Nat
  | [], acc => some acc
  | c :: rest, acc =>
      match dv c with
      | some d => if d < base then parseBaseAux base dv rest (acc * base + d) else none
      | none => none

def parseBaseDigits (base : Nat) (dv : Char → Option Nat) : List Char → Option Nat
  | [] => none
  | l => parseBaseAux base dv l 0

/-- Models the JavaScript `BigInt(string)` conversion: whitespace is
trimmed, an empty remainder is `0`, an optional sign is followed by
decimal digits, and the unsigned `0x`/`0o`/`0b` prefixes are accepted;
anything else throws (`none`). -/
def parseBigInt (s : String) : Option Int :=
  match trimChars s.data with
  | [] => some 0
  | '-' :: rest => (parseDecDigits rest).map (fun n => -(n : Int))
  | '+' :: rest => (parseDecDigits rest).map (fun n => (n : Int))
  | '0' :: 'x' :: rest => (parseBaseDigits 16 hexDigitVal rest).map (fun n => (n : Int))
  | '0' :: 'X' :: rest => (parseBaseDigits 16 hexDigitVal rest).map (fun n => (n : Int))
  | '0' :: 'o' :: rest => (parseBaseDigits 8 decDigitVal rest).map (fun n => (n : Int))
  | '0' :: 'O' :: rest => (parseBaseDigits 8 decDigitVal rest).map (fun n => (n : Int))
  | '0' :: 'b' :: rest => (parseBaseDigits 2 decDigitVal rest).map (fun n => (n : Int))
  | '0' :: 'B' :: rest => (parseBaseDigits 2 decDigitVal rest).map (fun n => (n : Int))
  | l => (parseDecDigits l).map (fun n => (n : Int))

/-- Models `BigInt.prototype.toString` (and `Number.prototype.toString`
on the integers this program prints). -/
def bigIntToString (n : Int) : String :=
  if n < 0 then "-" ++ Nat.repr n.natAbs else Nat.repr n.natAbs

/-! ## Base58 and Solana address validation

`new PublicKey(address)` base58-decodes the string and requires exactly
32 decoded bytes.  A base-x decode yields one zero byte per leading `1`
digit followed by the big-endian bytes of the accumulated value.
-/

def base58Alphabet : List Char :=
  "123456789ABCDEFGHJKLMNPQRSTUVWXYZabcdefghijkmnopqrstuvwxyz".data

def idxOfAux : List Char → Char → Nat → Option Nat
  | [], _, _ => none
  | c :: rest, d, i => if c = d then some i else idxOfAux rest d (i + 1)

def base58DigitVal (c : Char) : Option Nat := idxOfAux base58Alphabet c 0

def base58ValAux : List Char → Nat → Option Nat
  | [], acc => some acc
  | c :: rest, acc =>
      match base58DigitVal c with
      | some d => base58ValAux rest (acc * 58 + d)
      | none => none

def countLeadingOnes : List Char → Nat
  | '1' :: rest => countLeadingOnes rest + 1
  | _ => 0

def natByteLenAux : Nat → Nat → Nat
  | 0, _ => 0
  | _+1, 0 => 0
  | fuel+1, n+1 => natByteLenAux fuel ((n + 1) / 256) + 1

/-- Byte length of the big-endian representation of a natural number. -/
def natByteLen (n : Nat) : Nat := natByteLenAux 300 n

/-- Number of bytes `bs58.decode` produces, or `none` if a character is
outside the base58 alphabet (where `bs58.decode` throws). -/
def base58DecodedLen (s : String) : Option Nat :=
  (base58ValAux s.data 0).map (fun v => countLeadingOnes s.data + natByteLen v)

/-! ## Association-list maps (JS `Map` insertion-order semantics) -/

def getKey? {V : Type} : List (String × V) → String → Option V
  | [], _ => none
  | (k, v) :: rest, key => if k = key then some v else getKey? rest key

/-- Models `Map.prototype.set`: replaces the value at an existing key in
place, otherwise appends, preserving insertion order. -/
def setKey {V : Type} : List (String × V) → String → V → List (String × V)
  | [], key, v => [(key, v)]
  | (k, w) :: rest, key, v =>
      if k = key then (k, v) :: rest else (k, w) :: setKey rest key v

def hasKey {V : Type} (m : List (String × V)) (key : String) : Bool :=
  (getKey? m key).isSome

def removeKey {V : Type} : List (String × V) → String → List (String × V)
  | [], _ => []
  | (k, w) :: rest, key =>
      if k = key then rest else (k, w) :: removeKey rest key

/-- Ordered union of key lists, first occurrence kept: models iterating a
JS `Set` built from `[...a, ...b]`. -/
def dedupKeys : List String → List String → List String
  | [], _ => []
  | k :: rest, seen => if seen.contains k then dedupKeys rest seen else k :: dedupKeys rest (k :: seen)

/-! ## WalletMonitor (src/electron/services/walletMonitor.ts)

The session state of the `WalletMonitor` class.  The `Connection`,
`TransactionAnalyzer`, `CopyTradingEngine` and stored config are modelled
by presence flags, since the claims only concern whether they are held or
released.  RPC effects are parameters: `rpcOk` is whether
`connection.getVersion()` succeeds, and `onLogsEnv` gives the
subscription id `connection.onLogs` returns for an address (or `none`
when it throws).
-/

structure MonitorState where
  connection : Bool
  subscriptionIds : List (String × Nat)
  isRunning : Bool
  monitoredWallets : List String
  hasAnalyzer : Bool
  hasEngine : Bool
  hasConfig : Bool
deriving DecidableEq

def initialMonitorState : MonitorState :=
  { connection := false, subscriptionIds := [], isRunning := false
    monitoredWallets := [], hasAnalyzer := false, hasEngine := false, hasConfig := false }

/-- Models `parseWalletAddresses`: split on commas, trim entries, keep the
non-empty ones; a blank input yields the empty list. -/
def parseWalletAddresses (addressesString : String) : List String :=
  if addressesString = "" || jsTrim addressesString = "" then []
  else
    (((splitComma addressesString).map (fun cs => String.mk (trimChars cs))).filter
      (fun addr => addr.length > 0))

/-- Models `validateWalletAddress`: `new PublicKey(address)` succeeds iff
the string base58-decodes to exactly 32 bytes. -/
def validateWalletAddress (address : String) : Bool :=
  base58DecodedLen address = some 32

/-- Models `subscribeToWallet`: an invalid address throws inside the
`try`, is caught, reported, and yields `null`; for a valid address the
environment decides the subscription id `connection.onLogs` returns. -/
def subscribeToWallet (onLogsEnv : String → Option Nat) (address : String) : Option Nat :=
  if validateWalletAddress address then onLogsEnv address else none

/-- Models `stopMonitoring`.  Every tracked handle is unsubscribed
best-effort (`unsubscribeFromWallet` swallows its own failures, so no
error can propagate), then all session state is cleared and the
connection released.  The second component lists the subscription ids
whose removal was attempted. -/
def stopMonitoring (s : MonitorState) : MonitorState × List Nat :=
  ({ connection := false, subscriptionIds := [], isRunning := false
     monitoredWallets := [], hasAnalyzer := false, hasEngine := false, hasConfig := false },
   if s.connection && !s.subscriptionIds.isEmpty then s.subscriptionIds.map (fun p => p.2) else [])

/-- Models `startMonitoring`.  Its `catch` block reports the error, runs
`stopMonitoring` to clean partial state, and rethrows; that is modelled
by returning the cleared state together with `some` error message. -/
def startMonitoring (s : MonitorState) (rpcOk : Bool) (walletAddressesString : String)
    (configProvided : Bool) (onLogsEnv : String → Option Nat) : MonitorState × Option String :=
  let s0 := if s.isRunning then (stopMonitoring s).1 else s
  let walletAddresses := parseWalletAddresses walletAddressesString
  if walletAddresses.isEmpty then
    ((stopMonitoring s0).1, some "No valid wallet addresses provided")
  else
    let s1 := { s0 with connection := true }
    if !rpcOk then
      ((stopMonitoring s1).1, some "Failed to connect to Solana RPC")
    else
      let s2 := { s1 with hasAnalyzer := true, hasEngine := configProvided, hasConfig := configProvided }
      let subs := walletAddresses.filterMap
        (fun a => (subscribeToWallet onLogsEnv a).map (fun i => (a, i)))
      let s3 := { s2 with monitoredWallets := walletAddresses, subscriptionIds := subs }
      if subs.isEmpty then
        ((stopMonitoring s3).1, some "Failed to subscribe to any wallets")
      else
        ({ s3 with isRunning := true }, none)

structure WalletMonitoringStatus where
  isRunning : Bool
  monitoredWallets : List String
  connectionStatus : String
  subscriptionIds : List Nat
deriving DecidableEq

/-- Models `getStatus`: an immutable snapshot of the session. -/
def getStatus (s : MonitorState) : WalletMonitoringStatus :=
  { isRunning := s.isRunning
    monitoredWallets := s.monitoredWallets
    connectionStatus := if s.connection then "connected" else "disconnected"
    subscriptionIds := s.subscriptionIds.map (fun p => p.2) }

/-! ## TransactionAnalyzer (src/electron/services/transactionAnalyzer.ts)

Balance arrays come from the RPC as JS numbers; lamport balances and
their differences are integers below `2^53`, so `Decimal(x).toNumber()`
is exact and the deltas are modelled as exact rationals.
-/

def WSOL_MINT : String := "So11111111111111111111111111111111111111112"

structure TokenInfo where
  mint : String
  symbol : String
  decimals : Nat
deriving DecidableEq

structure DetectedTrade where
  type : String
  tokenInfo : TokenInfo
  tokenMint : String
  currencyMint : String
  currencySymbol : String
  tokenAmount : Rat
  currencyAmount : Rat
  originalTxSignature : String
  monitoredWallet : String
deriving DecidableEq

structure TokenBalance where
  mint : String
  owner : Option String
  uiAmount : Option Rat
deriving DecidableEq

structure ParsedTx where
  signatures : List String
  accountKeys : Option (List String)
  preBalances : Option (List Int)
  postBalances : Option (List Int)
  preTokenBalances : Option (List TokenBalance)
  postTokenBalances : Option (List TokenBalance)
deriving DecidableEq

/-- Models `getTokenInfo` of the analyzer: the per-session cache is
consulted first; otherwise `getMint` (whose outcome, the on-chain
decimals, is the `getMintResult` parameter) fills the cache, and a failed
lookup caches a fallback with the truncated mint as symbol and 6
decimals. -/
def getTokenInfo (tokenCache : List (String × TokenInfo)) (mintAddress : String)
    (getMintResult : Option Nat) : TokenInfo × List (String × TokenInfo) :=
  match getKey? tokenCache mintAddress with
  | some t => (t, tokenCache)
  | none =>
      match getMintResult with
      | some decimals =>
          let tokenInfo : TokenInfo :=
            { mint := mintAddress, symbol := jsSlice0 mintAddress 8, decimals := decimals }
          (tokenInfo, setKey tokenCache mintAddress tokenInfo)
      | none =>
          let fallbackInfo : TokenInfo :=
            { mint := mintAddress, symbol := jsSlice0 mintAddress 8, decimals := 6 }
          (fallbackInfo, setKey tokenCache mintAddress fallbackInfo)

/-- Runs a sequence of `getTokenInfo` calls, each with the `getMint`
outcome a fresh lookup would have at that moment. -/
def runTokenInfoCalls (tokenCache : List (String × TokenInfo)) :
    List (String × Option Nat) → List TokenInfo × List (String × TokenInfo)
  | [] => ([], tokenCache)
  | (mint, res) :: rest =>
      let p := getTokenInfo tokenCache mint res
      let q := runTokenInfoCalls p.2 rest
      (p.1 :: q.1, q.2)

/-- Models `lamportsToSol`. -/
def lamportsToSol (lamports : Int) : Rat := qdiv (mkRat lamports 1) (mkRat 1000000000 1)

/-- Models `createBalanceMap`: token-balance records owned by the wallet
whose `uiAmount` is non-null, keyed by mint with JS `Map` semantics.  The
mapped value only ever feeds `uiTokenAmount.uiAmount`, so the amount is
stored directly. -/
def createBalanceMap (monitoredWalletAddress : String) (balances : List TokenBalance) :
    List (String × Rat) :=
  balances.foldl
    (fun m b =>
      match b.owner, b.uiAmount with
      | some o, some a => if o = monitoredWalletAddress then setKey m b.mint a else m
      | _, _ => m)
    []

def solThreshold : Rat := mkRat 1 100000

def tokenDustThreshold : Rat := mkRat 1 1000000

/-- The delta of a mint between the two balance maps (`?? 0` on both
sides). -/
def mintDelta (preMap postMap : List (String × Rat)) (mint : String) : Rat :=
  qsub ((getKey? postMap mint).getD 0) ((getKey? preMap mint).getD 0)

/-- Models the `for (const mint of allMints)` loop of `analyzeTrade`:
skips the wrapped-SOL mint, skips deltas at or below the fine dust
threshold, and returns the first mint whose delta passes the
`isBuy`/`isSell` test, together with its delta and whether it is a buy. -/
def findTradeMint (preMap postMap : List (String × Rat)) (solChangeToUse : Rat) :
    List String → Option (String × Rat × Bool)
  | [] => none
  | mint :: rest =>
      if mint = WSOL_MINT then findTradeMint preMap postMap solChangeToUse rest
      else
        let tokenChange := mintDelta preMap postMap mint
        if tokenDustThreshold < qabs tokenChange then
          let isBuy := 0 < tokenChange ∧ solChangeToUse < qneg solThreshold
          let isSell := tokenChange < 0 ∧ solThreshold < solChangeToUse
          if isBuy ∨ isSell then some (mint, tokenChange, decide isBuy)
          else findTradeMint preMap postMap solChangeToUse rest
        else findTradeMint preMap postMap solChangeToUse rest

/-- Models `analyzeTrade`.  `tokenInfoOf` is the awaited result of the
memoized `getTokenInfo`; the error case models the exception
`new Decimal(undefined)` raises when the balance arrays are shorter than
the account-key list. -/
def analyzeTrade (transaction : Option ParsedTx) (monitoredWalletAddress : String)
    (tokenInfoOf : String → TokenInfo) : Except String (Option DetectedTrade) :=
  match transaction with
  | none => .ok none
  | some tx =>
      match tx.preTokenBalances, tx.postTokenBalances, tx.preBalances, tx.postBalances,
            tx.accountKeys, tx.signatures.head? with
      | some preTokenBalances, some postTokenBalances, some preBalances, some postBalances,
        some accountKeys, some txSignature =>
          if txSignature = "" then .ok none
          else
            let nativeOrErr : Except String Rat :=
              match accountKeys.findIdx? (fun key => key = monitoredWalletAddress) with
              | none => .ok 0
              | some walletAccountIndex =>
                  match preBalances.get? walletAccountIndex,
                        postBalances.get? walletAccountIndex with
                  | some preBalance, some postBalance =>
                      .ok (lamportsToSol (postBalance - preBalance))
                  | _, _ => .error "[DecimalError] Invalid argument"
            match nativeOrErr with
            | .error e => .error e
            | .ok nativeSolChange =>
                let preTokenBalanceMap := createBalanceMap monitoredWalletAddress preTokenBalances
                let postTokenBalanceMap := createBalanceMap monitoredWalletAddress postTokenBalances
                let wsolTokenChange := mintDelta preTokenBalanceMap postTokenBalanceMap WSOL_MINT
                let solChangeToUse :=
                  if solThreshold < qabs nativeSolChange then nativeSolChange else wsolTokenChange
                let solSymbolToUse :=
                  if solThreshold < qabs nativeSolChange then "SOL" else "WSOL"
                if qabs solChangeToUse < solThreshold then .ok none
                else
                  let allMints := dedupKeys
                    (preTokenBalanceMap.map (fun p => p.1) ++ postTokenBalanceMap.map (fun p => p.1)) []
                  match findTradeMint preTokenBalanceMap postTokenBalanceMap solChangeToUse allMints with
                  | none => .ok none
                  | some (mint, tokenChange, isBuy) =>
                      .ok (some
                        { type := if isBuy then "buy" else "sell"
                          tokenInfo := tokenInfoOf mint
                          tokenMint := mint
                          currencyMint := WSOL_MINT
                          currencySymbol := solSymbolToUse
                          tokenAmount := qabs tokenChange
                          currencyAmount := qabs solChangeToUse
                          originalTxSignature := txSignature
                          monitoredWallet := monitoredWalletAddress })
      | _, _, _, _, _, _ => .ok none

/-! ## Specification-side classifiers for the trade classifier

`classifyWithConsistency` renders the wording of the specification
(steps 3-5 of `classify`): pick the currency change, return none when it
is below the dust threshold, then report the first other mint whose
delta exceeds the finer dust threshold and satisfies the given
sign-consistency test (token up and currency down means buy, token down
and currency up means sell).  `classifySpecC3` instantiates it with the
literal sign test of the claim; `classifyAmendedC3` with the strict
threshold test the code applies.
-/

def specSignConsistent (solChange tokenChange : Rat) : Bool :=
  decide ((0 < tokenChange ∧ solChange < 0) ∨ (tokenChange < 0 ∧ 0 < solChange))

def amendedSignConsistent (solChange tokenChange : Rat) : Bool :=
  decide ((0 < tokenChange ∧ solChange < qneg solThreshold) ∨
          (tokenChange < 0 ∧ solThreshold < solChange))

def classifyWithConsistency (consistent : Rat → Rat → Bool) (transaction : Option ParsedTx)
    (monitoredWalletAddress : String) (tokenInfoOf : String → TokenInfo) :
    Except String (Option DetectedTrade) :=
  match transaction with
  | none => .ok none
  | some tx =>
      match tx.preTokenBalances, tx.postTokenBalances, tx.preBalances, tx.postBalances,
            tx.accountKeys, tx.signatures.head? with
      | some preTokenBalances, some postTokenBalances, some preBalances, some postBalances,
        some accountKeys, some txSignature =>
          if txSignature = "" then .ok none
          else
            let nativeOrErr : Except String Rat :=
              match accountKeys.findIdx? (fun key => key = monitoredWalletAddress) with
              | none => .ok 0
              | some walletAccountIndex =>
                  match preBalances.get? walletAccountIndex,
                        postBalances.get? walletAccountIndex with
                  | some preBalance, some postBalance =>
                      .ok (lamportsToSol (postBalance - preBalance))
                  | _, _ => .error "[DecimalError] Invalid argument"
            match nativeOrErr with
            | .error e => .error e
            | .ok nativeSolChange =>
                let preTokenBalanceMap := createBalanceMap monitoredWalletAddress preTokenBalances
                let postTokenBalanceMap := createBalanceMap monitoredWalletAddress postTokenBalances
                let wsolTokenChange := mintDelta preTokenBalanceMap postTokenBalanceMap WSOL_MINT
                let solChangeToUse :=
                  if solThreshold < qabs nativeSolChange then nativeSolChange else wsolTokenChange
                let solSymbolToUse :=
                  if solThreshold < qabs nativeSolChange then "SOL" else "WSOL"
                if qabs solChangeToUse < solThreshold then .ok none
                else
                  let allMints := dedupKeys
                    (preTokenBalanceMap.map (fun p => p.1) ++ postTokenBalanceMap.map (fun p => p.1)) []
                  match allMints.find? (fun mint =>
                      mint ≠ WSOL_MINT &&
                      tokenDustThreshold < qabs (mintDelta preTokenBalanceMap postTokenBalanceMap mint) &&
                      consistent solChangeToUse (mintDelta preTokenBalanceMap postTokenBalanceMap mint)) with
                  | none => .ok none
                  | some mint =>
                      let tokenChange := mintDelta preTokenBalanceMap postTokenBalanceMap mint
                      .ok (some
                        { type := if 0 < tokenChange then "buy" else "sell"
                          tokenInfo := tokenInfoOf mint
                          tokenMint := mint
                          currencyMint := WSOL_MINT
                          currencySymbol := solSymbolToUse
                          tokenAmount := qabs tokenChange
                          currencyAmount := qabs solChangeToUse
                          originalTxSignature := txSignature
                          monitoredWallet := monitoredWalletAddress })
      | _, _, _, _, _, _ => .ok none

def classifySpecC3 : Option ParsedTx → String → (String → TokenInfo) →
    Except String (Option DetectedTrade) :=
  classifyWithConsistency specSignConsistent

def classifyAmendedC3 : Option ParsedTx → String → (String → TokenInfo) →
    Except String (Option DetectedTrade) :=
  classifyWithConsistency amendedSignConsistent

/-! ## StateManager holdings ledger (src/electron/services/stateManager.ts) -/

structure BotHolding where
  tokenMint : String
  amountLamports : String
  solSpentLamports : String
  buyTxSignature : String
  monitoredWallet : String
  timestamp : Int
  tokenSymbol : String
  tokenDecimals : Nat
deriving DecidableEq

/-- In-memory holdings: a JS `Map` keyed by token mint. -/
abbrev Ledger := List (String × BotHolding)

/-- Models `addOrUpdateHolding`.  The result carries the new in-memory
map and the list of whole-ledger snapshots written to disk by
`saveHoldings` (one per call).  The error case is the exception
`BigInt(string)` raises on a non-numeric stored amount, which propagates
to the caller before anything is persisted. -/
def addOrUpdateHolding (holdings : Ledger) (tokenMint amountBoughtLamports solSpentLamports
    buyTxSignature monitoredWallet tokenSymbol : String) (tokenDecimals : Nat) (now : Int) :
    Except String (Ledger × List Ledger) :=
  match getKey? holdings tokenMint with
  | some existingHolding =>
      match parseBigInt existingHolding.amountLamports, parseBigInt amountBoughtLamports,
            parseBigInt existingHolding.solSpentLamports, parseBigInt solSpentLamports with
      | some a, some b, some c, some d =>
          let updatedHolding : BotHolding :=
            { existingHolding with
              amountLamports := bigIntToString (a + b)
              solSpentLamports := bigIntToString (c + d)
              buyTxSignature := buyTxSignature
              monitoredWallet := monitoredWallet
              timestamp := now }
          let newHoldings := setKey holdings tokenMint updatedHolding
          .ok (newHoldings, [newHoldings])
      | _, _, _, _ => .error "Cannot convert to a BigInt"
  | none =>
      let newHolding : BotHolding :=
        { tokenMint := tokenMint
          amountLamports := amountBoughtLamports
          solSpentLamports := solSpentLamports
          buyTxSignature := buyTxSignature
          monitoredWallet := monitoredWallet
          timestamp := now
          tokenSymbol := tokenSymbol
          tokenDecimals := tokenDecimals }
      let newHoldings := setKey holdings tokenMint newHolding
      .ok (newHoldings, [newHoldings])

/-- Models `removeHolding`: deletes and persists if present, otherwise
only warns. -/
def removeHolding (holdings : Ledger) (tokenMint : String) : Ledger × List Ledger :=
  if hasKey holdings tokenMint then
    let newHoldings := removeKey holdings tokenMint
    (newHoldings, [newHoldings])
  else (holdings, [])

/-- Models `getHolding`. -/
def getHolding (holdings : Ledger) (tokenMint : String) : Option BotHolding :=
  getKey? holdings tokenMint

/-! ## Loading the holdings file

`loadHoldings` reads the JSON file; the file-system read and the builtin
`JSON.parse` are the environment, so its input is modelled as: the file
is missing (`ENOENT`), the read fails otherwise, the contents trim to
the empty string, `JSON.parse` throws, or `JSON.parse` returns a JSON
value.  The loaded in-memory entries are kept as JSON values, each of
which `validateHolding` has checked to carry the `BotHolding` fields.
-/

inductive Json where
  | null : Json
  | bool (b : Bool) : Json
  | num (q : Rat) : Json
  | str (s : String) : Json
  | arr (xs : List Json) : Json
  | obj (fields : List (String × Json)) : Json

/-- JavaScript truthiness of a parsed JSON value. -/
def jsTruthy : Json → Bool
  | .null => false
  | .bool b => b
  | .num q => q ≠ 0
  | .str s => s ≠ ""
  | .arr _ => true
  | .obj _ => true

/-- Property access `holding.field` on a parsed JSON value: `undefined`
(`none`) unless the value is an object with that field. -/
def jsonField : Json → String → Option Json
  | .obj fields, name => getKey? fields name
  | _, _ => none

def isJsonString (j : Option Json) : Bool :=
  match j with
  | some (.str _) => true
  | _ => false

def isJsonNumber (j : Option Json) : Bool :=
  match j with
  | some (.num _) => true
  | _ => false

/-- Models `validateHolding`: the record is truthy and every `BotHolding`
field has the right `typeof`. -/
def validateHolding (holding : Json) : Bool :=
  jsTruthy holding &&
  isJsonString (jsonField holding "tokenMint") &&
  isJsonString (jsonField holding "amountLamports") &&
  isJsonString (jsonField holding "solSpentLamports") &&
  isJsonString (jsonField holding "buyTxSignature") &&
  isJsonString (jsonField holding "monitoredWallet") &&
  isJsonNumber (jsonField holding "timestamp") &&
  isJsonString (jsonField holding "tokenSymbol") &&
  isJsonNumber (jsonField holding "tokenDecimals")

def indexEntries (xs : List Json) (start : Nat) : List (String × Json) :=
  match xs with
  | [] => []
  | x :: rest => (Nat.repr start, x) :: indexEntries rest (start + 1)

def indexCharEntries (cs : List Char) (start : Nat) : List (String × Json) :=
  match cs with
  | [] => []
  | c :: rest => (Nat.repr start, .str (String.mk [c])) :: indexCharEntries rest (start + 1)

/-- Models `Object.entries` on a `JSON.parse` result: object fields in
insertion order; strings and arrays enumerate their indexed elements;
numbers and booleans have no own enumerable properties; `null` throws a
`TypeError`. -/
def objectEntries : Json → Except String (List (String × Json))
  | .null => .error "TypeError: Cannot convert undefined or null to object"
  | .bool _ => .ok []
  | .num _ => .ok []
  | .str s => .ok (indexCharEntries s.data 0)
  | .arr xs => .ok (indexEntries xs 0)
  | .obj fields => .ok fields

inductive HoldingsFile where
  | missingFile : HoldingsFile
  | readError : HoldingsFile
  | blankFile : HoldingsFile
  | unparseable : HoldingsFile
  | parsed (data : Json) : HoldingsFile

/-- Models `loadHoldings`: a missing file, a failed read, blank contents
and a `JSON.parse` failure all yield the empty ledger; otherwise every
entry is validated independently and the invalid ones are dropped (and
counted, which does not affect the resulting map). -/
def loadHoldings : HoldingsFile → List (String × Json)
  | .missingFile => []
  | .readError => []
  | .blankFile => []
  | .unparseable => []
  | .parsed data =>
      match objectEntries data with
      | .error _ => []
      | .ok entries =>
          entries.foldl
            (fun loaded kv =>
              if validateHolding kv.2 then setKey loaded kv.1 kv.2 else loaded)
            []

/-! ## CopyTradingEngine (src/electron/services/copyTradingEngine.ts,
embedded in the stateManager source file)

External effects are an `EngineEnv`: `loadWallet` models
`loadBotWallet` (its `Except` error already carries the
"Failed to load bot wallet: ..." message that function throws);
`tokenBalance` models `getTokenBalance`, which returns `0` when the
token account does not exist; `getQuote`/`getSwap` model the Jupiter
HTTP client, returning `none` on any HTTP failure; `execTx` models
`sendTransaction`/`confirmTransaction`, whose failure is the thrown
message.  Every call to the quote/swap/broadcast/balance endpoints is
recorded in a `JupAction` trace.
-/

structure ConfigData where
  rpcEndpointUrl : String
  botWalletPrivateKey : String
  copyTradeAmountSol : Rat
  slippagePercentage : Rat
  monitoredWalletAddresses : String
  manageWithSltp : Bool
  takeProfitPercentage : Option Rat
  stopLossPercentage : Option Rat
  priceCheckIntervalSeconds : Option Rat
deriving DecidableEq

/-- Models `CopyTradeResult`; the `amount` field carries the numeric
value whose decimal rendering the TS code stores. -/
structure CopyTradeResult where
  success : Bool
  tradeType : String
  tokenMint : String
  tokenSymbol : String
  amount : Rat
  signature : Option String
  error : Option String
  timestamp : Int
  originalTxSignature : String
  monitoredWallet : String
deriving DecidableEq

inductive JupAction where
  | quote (inputMint outputMint : String) (amount : Int) (slippageBps : Int)
  | swap (userPublicKey : String) (quoteOutAmount : String)
  | sendTransaction
  | balanceQuery (mint : String)
deriving DecidableEq

structure JupiterQuote where
  outAmount : String
deriving DecidableEq

structure EngineEnv where
  loadWallet : String → Except String String
  tokenBalance : String → Nat
  getQuote : String → String → Int → Int → Option JupiterQuote
  getSwap : String → JupiterQuote → Option String
  execTx : String → Except String String

/-- Models `validateTrade`, returning the error of the first failing
check. -/
def validateTrade (detectedTrade : DetectedTrade) (config : ConfigData) : Option String :=
  if detectedTrade.type ≠ "buy" ∧ detectedTrade.type ≠ "sell" then some "Invalid trade type"
  else if detectedTrade.tokenAmount ≤ 0 then some "Invalid token amount"
  else if detectedTrade.currencyAmount ≤ 0 then some "Invalid currency amount"
  else if jsTrim config.botWalletPrivateKey = "" then some "Bot wallet private key not configured"
  else if detectedTrade.type = "buy" ∧ config.copyTradeAmountSol ≤ 0 then
    some "Copy trade amount must be greater than 0"
  else none

/-- Models `executeTransaction`: deserialization, signing, broadcast and
confirmation, wrapping any failure in its own message. -/
def executeTransaction (env : EngineEnv) (base64Transaction : String) :
    Except String String × List JupAction :=
  match env.execTx base64Transaction with
  | .ok signature => (.ok signature, [.sendTransaction])
  | .error e => (.error ("Transaction execution failed: " ++ e), [.sendTransaction])

/-- Models `executeBuyTrade`: the lamport spend and the slippage basis
points are computed with JavaScript float64 multiplication and
`Math.floor`; then quote, swap, broadcast, and a holdings merge whose
own failure is swallowed. -/
def executeBuyTrade (env : EngineEnv) (holdings : Ledger) (detectedTrade : DetectedTrade)
    (config : ConfigData) (botWallet : String) (timestamp now : Int) :
    Except String CopyTradeResult × List JupAction × Ledger :=
  let inputMint := WSOL_MINT
  let outputMint := detectedTrade.tokenMint
  let amountInLamports : Int := jsMathFloor (fl64 (qmul config.copyTradeAmountSol (mkRat 1000000000 1)))
  let slippageBps : Int := jsMathFloor (fl64 (qmul config.slippagePercentage (mkRat 100 1)))
  let quoteAct : JupAction := .quote inputMint outputMint amountInLamports slippageBps
  match env.getQuote inputMint outputMint amountInLamports slippageBps with
  | none => (.error "Buy trade execution failed: Failed to get Jupiter quote", [quoteAct], holdings)
  | some quote =>
      match env.getSwap botWallet quote with
      | none =>
          (.error "Buy trade execution failed: Failed to get Jupiter swap transaction",
           [quoteAct, .swap botWallet quote.outAmount], holdings)
      | some swapTransaction =>
          match executeTransaction env swapTransaction with
          | (.error e, _) =>
              (.error ("Buy trade execution failed: " ++ e),
               [quoteAct, .swap botWallet quote.outAmount, .sendTransaction], holdings)
          | (.ok signature, _) =>
              let newHoldings :=
                match addOrUpdateHolding holdings outputMint quote.outAmount
                    (bigIntToString amountInLamports) signature detectedTrade.monitoredWallet
                    detectedTrade.tokenInfo.symbol detectedTrade.tokenInfo.decimals now with
                | .ok p => p.1
                | .error _ => holdings
              (.ok { success := true
                     tradeType := "buy"
                     tokenMint := outputMint
                     tokenSymbol := detectedTrade.tokenInfo.symbol
                     amount := config.copyTradeAmountSol
                     signature := some signature
                     error := none
                     timestamp := timestamp
                     originalTxSignature := detectedTrade.originalTxSignature
                     monitoredWallet := detectedTrade.monitoredWallet },
               [quoteAct, .swap botWallet quote.outAmount, .sendTransaction], newHoldings)

/-- Models `executeSellTrade`: a mint with no ledger entry is skipped
with a failed result before any balance, quote or swap call; otherwise
the live balance is sold in full and the entry removed. -/
def executeSellTrade (env : EngineEnv) (holdings : Ledger) (detectedTrade : DetectedTrade)
    (config : ConfigData) (botWallet : String) (timestamp _now : Int) :
    Except String CopyTradeResult × List JupAction × Ledger :=
  let inputMint := detectedTrade.tokenMint
  let outputMint := WSOL_MINT
  let slippageBps : Int := jsMathFloor (fl64 (qmul config.slippagePercentage (mkRat 100 1)))
  match getKey? holdings inputMint with
  | none =>
      (.ok { success := false
             tradeType := "sell"
             tokenMint := inputMint
             tokenSymbol := detectedTrade.tokenInfo.symbol
             amount := 0
             signature := none
             error := some ("No holding found for " ++ detectedTrade.tokenInfo.symbol ++
               ". Cannot sell token we don\x27t own.")
             timestamp := timestamp
             originalTxSignature := detectedTrade.originalTxSignature
             monitoredWallet := detectedTrade.monitoredWallet },
       [], holdings)
  | some _ =>
      let tokenBalanceRaw := env.tokenBalance inputMint
      let balAct : JupAction := .balanceQuery inputMint
      if tokenBalanceRaw = 0 then
        (.error ("Sell trade execution failed: No " ++ detectedTrade.tokenInfo.symbol ++
           " balance to sell"), [balAct], holdings)
      else
        let tokenBalanceUI :=
          fl64 (qdiv (mkRat tokenBalanceRaw 1) (fl64 (mkRat ((10 : Nat) ^ detectedTrade.tokenInfo.decimals) 1)))
        let quoteAct : JupAction := .quote inputMint outputMint tokenBalanceRaw slippageBps
        match env.getQuote inputMint outputMint tokenBalanceRaw slippageBps with
        | none =>
            (.error "Sell trade execution failed: Failed to get Jupiter quote",
             [balAct, quoteAct], holdings)
        | some quote =>
            match env.getSwap botWallet quote with
            | none =>
                (.error "Sell trade execution failed: Failed to get Jupiter swap transaction",
                 [balAct, quoteAct, .swap botWallet quote.outAmount], holdings)
            | some swapTransaction =>
                match executeTransaction env swapTransaction with
                | (.error e, _) =>
                    (.error ("Sell trade execution failed: " ++ e),
                     [balAct, quoteAct, .swap botWallet quote.outAmount, .sendTransaction], holdings)
                | (.ok signature, _) =>
                    let newHoldings := (removeHolding holdings inputMint).1
                    (.ok { success := true
                           tradeType := "sell"
                           tokenMint := inputMint
                           tokenSymbol := detectedTrade.tokenInfo.symbol
                           amount := tokenBalanceUI
                           signature := some signature
                           error := none
                           timestamp := timestamp
                           originalTxSignature := detectedTrade.originalTxSignature
                           monitoredWallet := detectedTrade.monitoredWallet },
                     [balAct, quoteAct, .swap botWallet quote.outAmount, .sendTransaction],
                     newHoldings)

/-- The failed `CopyTradeResult` both catch blocks of `processCopyTrade`
build. -/
def failedCopyResult (detectedTrade : DetectedTrade) (error : String) (timestamp : Int) :
    CopyTradeResult :=
  { success := false
    tradeType := detectedTrade.type
    tokenMint := detectedTrade.tokenMint
    tokenSymbol := detectedTrade.tokenInfo.symbol
    amount := 0
    signature := none
    error := some error
    timestamp := timestamp
    originalTxSignature := detectedTrade.originalTxSignature
    monitoredWallet := detectedTrade.monitoredWallet }

/-- Models `processCopyTrade`: validation, wallet loading, dispatch; its
`try`/`catch` turns every thrown error into a failed result, so the
function is total. -/
def processCopyTrade (env : EngineEnv) (holdings : Ledger) (detectedTrade : DetectedTrade)
    (config : ConfigData) (timestamp now : Int) :
    CopyTradeResult × List JupAction × Ledger :=
  match validateTrade detectedTrade config with
  | some error => (failedCopyResult detectedTrade error timestamp, [], holdings)
  | none =>
      match env.loadWallet config.botWalletPrivateKey with
      | .error e =>
          (failedCopyResult detectedTrade ("Copy trade failed: " ++ e) timestamp, [], holdings)
      | .ok botWallet =>
          let r :=
            if detectedTrade.type = "buy" then
              executeBuyTrade env holdings detectedTrade config botWallet timestamp now
            else
              executeSellTrade env holdings detectedTrade config botWallet timestamp now
          match r with
          | (.ok result, trace, newHoldings) => (result, trace, newHoldings)
          | (.error e, trace, newHoldings) =>
              (failedCopyResult detectedTrade ("Copy trade failed: " ++ e) timestamp,
               trace, newHoldings)

deriving instance DecidableEq for Except

/-! ## Map lemmas shared by the claim theorems -/

theorem getKey?_setKey_self {V : Type} (m : List (String × V)) (k : String) (v : V) :
    getKey? (setKey m k v) k = some v := by
  induction m with
  | nil => simp [setKey, getKey?]
  | cons p rest ih =>
      by_cases h : p.1 = k
      · simp [setKey, getKey?, h]
      · simp [setKey, getKey?, h, ih]

theorem getKey?_setKey_ne {V : Type} (m : List (String × V)) (k k' : String) (v : V)
    (h : k' ≠ k) : getKey? (setKey m k v) k' = getKey? m k' := by
  have hne : ¬ (k = k') := fun hk => h hk.symm
  induction m with
  | nil => simp [setKey, getKey?, hne]
  | cons p rest ih =>
      rcases p with ⟨a, w⟩
      by_cases hp : a = k
      · subst hp
        simp [setKey, getKey?, hne]
      · simp [setKey, getKey?, hp, ih]

theorem setKey_absent {V : Type} (m : List (String × V)) (k : String) (v : V)
    (h : getKey? m k = none) : setKey m k v = m ++ [(k, v)] := by
  induction m with
  | nil => simp [setKey]
  | cons p rest ih =>
      rcases p with ⟨a, w⟩
      by_cases hp : a = k
      · simp [getKey?, hp] at h
      · simp [getKey?, hp] at h
        simp [setKey, hp, ih h]

/-- Number of entries a mint owns in the ledger list. -/
def countKey {V : Type} (m : List (String × V)) (k : String) : Nat :=
  (m.filter (fun p => p.1 = k)).length

theorem countKey_setKey_present {V : Type} (m : List (String × V)) (k : String) (v : V)
    (h : (getKey? m k).isSome) : countKey (setKey m k v) k = countKey m k := by
  induction m with
  | nil => simp [getKey?] at h
  | cons p rest ih =>
      rcases p with ⟨a, w⟩
      by_cases hp : a = k
      · subst hp
        simp [setKey, countKey, List.filter]
      · simp [getKey?, hp] at h
        have hrec := ih h
        simp [setKey, countKey, List.filter, hp] at hrec ⊢
        exact hrec

/-! ## Claim C8 -/

/-- C8: `stopMonitoring` is idempotent.  Calling it twice from any state
leaves `isRunning = false`, an empty wallet list and subscription map,
and a released connection; the model is a total function (every
unsubscribe failure is swallowed inside `unsubscribeFromWallet`), so
neither call raises, and the second call attempts no unsubscribes. -/
theorem stopMonitoring_idempotent (s : MonitorState) :
    (stopMonitoring (stopMonitoring s).1).1.isRunning = false ∧
    (stopMonitoring (stopMonitoring s).1).1.monitoredWallets = [] ∧
    (stopMonitoring (stopMonitoring s).1).1.subscriptionIds = [] ∧
    (stopMonitoring (stopMonitoring s).1).1.connection = false ∧
    (stopMonitoring (stopMonitoring s).1).1 = (stopMonitoring s).1 ∧
    (stopMonitoring (stopMonitoring s).1).2 = [] := by
  simp [stopMonitoring]

/-! ## Claim C1 -/

def mixedCsvExample : String := "So11111111111111111111111111111111111111112,abc"

/-- C1 counterexample: a CSV with one well-formed address (the wrapped
SOL mint, which base58-decodes to 32 bytes) and one malformed entry
`"abc"`.  The call succeeds, but `getStatus().monitoredWallets` keeps
both entries while only the well-formed one was subscribed, so the
monitored-wallet list differs from the successfully subscribed set. -/
theorem startMonitoring_monitoredWallets_counterexample :
    (startMonitoring initialMonitorState true mixedCsvExample false (fun _ => some 7)).2 = none ∧
    validateWalletAddress "abc" = false ∧
    (getStatus (startMonitoring initialMonitorState true mixedCsvExample false
        (fun _ => some 7)).1).monitoredWallets =
      ["So11111111111111111111111111111111111111112", "abc"] ∧
    (startMonitoring initialMonitorState true mixedCsvExample false
        (fun _ => some 7)).1.subscriptionIds.map (fun p => p.1) =
      ["So11111111111111111111111111111111111111112"] ∧
    (getStatus (startMonitoring initialMonitorState true mixedCsvExample false
        (fun _ => some 7)).1).monitoredWallets ≠
      (startMonitoring initialMonitorState true mixedCsvExample false
        (fun _ => some 7)).1.subscriptionIds.map (fun p => p.1) := by
  decide

/-- C1 (amended): when the parsed address list is non-empty, the RPC
connection succeeds and at least one subscription succeeds, the call
succeeds and subscriptions are held exactly for the addresses that
validated and subscribed; but `getStatus().monitoredWallets` equals the
whole trimmed non-empty CSV entry list, malformed entries included, not
the successfully subscribed subset. -/
theorem startMonitoring_partial_subscriptions (s : MonitorState) (csv : String)
    (configProvided : Bool) (onLogsEnv : String → Option Nat)
    (hne : ¬ (parseWalletAddresses csv).isEmpty)
    (hsub : ¬ ((parseWalletAddresses csv).filterMap
        (fun a => (subscribeToWallet onLogsEnv a).map (fun i => (a, i)))).isEmpty) :
    (startMonitoring s true csv configProvided onLogsEnv).2 = none ∧
    (getStatus (startMonitoring s true csv configProvided onLogsEnv).1).isRunning = true ∧
    (getStatus (startMonitoring s true csv configProvided onLogsEnv).1).monitoredWallets =
      parseWalletAddresses csv ∧
    (startMonitoring s true csv configProvided onLogsEnv).1.subscriptionIds =
      (parseWalletAddresses csv).filterMap
        (fun a => (subscribeToWallet onLogsEnv a).map (fun i => (a, i))) ∧
    ∀ p ∈ (startMonitoring s true csv configProvided onLogsEnv).1.subscriptionIds,
      validateWalletAddress p.1 = true ∧ onLogsEnv p.1 = some p.2 := by
  simp only [Bool.not_eq_true] at hne hsub
  have hmain : startMonitoring s true csv configProvided onLogsEnv =
      ({ connection := true
         subscriptionIds := (parseWalletAddresses csv).filterMap
           (fun a => (subscribeToWallet onLogsEnv a).map (fun i => (a, i)))
         isRunning := true
         monitoredWallets := parseWalletAddresses csv
         hasAnalyzer := true
         hasEngine := configProvided
         hasConfig := configProvided }, none) := by
    simp [startMonitoring, hne, hsub]
  refine ⟨by rw [hmain], by rw [hmain]; rfl, by rw [hmain]; rfl, by rw [hmain], ?_⟩
  rw [hmain]
  intro p hp
  rw [List.mem_filterMap] at hp
  obtain ⟨a, _, ha⟩ := hp
  rw [Option.map_eq_some'] at ha
  obtain ⟨i, hi, hai⟩ := ha
  unfold subscribeToWallet at hi
  by_cases hv : validateWalletAddress a
  · rw [if_pos hv] at hi
    subst hai
    exact ⟨hv, hi⟩
  · rw [if_neg hv] at hi
    exact absurd hi (by simp)

/-- C1 witness for the amended theorem, at the mixed CSV example. -/
theorem startMonitoring_partial_subscriptions_witness :
    (startMonitoring initialMonitorState true mixedCsvExample false (fun _ => some 7)).2 = none ∧
    (getStatus (startMonitoring initialMonitorState true mixedCsvExample false
        (fun _ => some 7)).1).monitoredWallets = parseWalletAddresses mixedCsvExample :=
  ⟨(startMonitoring_partial_subscriptions initialMonitorState mixedCsvExample false
      (fun _ => some 7) (by decide) (by decide)).1,
   (startMonitoring_partial_subscriptions initialMonitorState mixedCsvExample false
      (fun _ => some 7) (by decide) (by decide)).2.2.1⟩

/-! ## Claims C4 and C9 -/

/-- C4: `addOrUpdateHolding` merges an existing entry by exact
arbitrary-precision integer addition of the amount and currency-spent
strings, leaving the number of entries for the mint unchanged; it
creates a new entry when the mint is absent; and in both cases the one
write performed is the whole resulting ledger, before returning. -/
theorem addOrUpdateHolding_accumulates (holdings : Ledger)
    (mint amt spent sig wallet sym : String) (decs : Nat) (now : Int) :
    (∀ h : BotHolding, ∀ a b c d : Int, getKey? holdings mint = some h →
      parseBigInt h.amountLamports = some a → parseBigInt amt = some b →
      parseBigInt h.solSpentLamports = some c → parseBigInt spent = some d →
      (let merged : BotHolding :=
        { h with amountLamports := bigIntToString (a + b)
                 solSpentLamports := bigIntToString (c + d)
                 buyTxSignature := sig
                 monitoredWallet := wallet
                 timestamp := now }
       addOrUpdateHolding holdings mint amt spent sig wallet sym decs now =
          .ok (setKey holdings mint merged, [setKey holdings mint merged]) ∧
       countKey (setKey holdings mint merged) mint = countKey holdings mint)) ∧
    (getKey? holdings mint = none →
      (let fresh : BotHolding :=
        { tokenMint := mint, amountLamports := amt, solSpentLamports := spent
          buyTxSignature := sig, monitoredWallet := wallet, timestamp := now
          tokenSymbol := sym, tokenDecimals := decs }
       addOrUpdateHolding holdings mint amt spent sig wallet sym decs now =
          .ok (holdings ++ [(mint, fresh)], [holdings ++ [(mint, fresh)]]))) := by
  constructor
  · intro h a b c d hfound ha hb hc hd
    refine ⟨?_, ?_⟩
    · simp only [addOrUpdateHolding, hfound, ha, hb, hc, hd]
    · exact countKey_setKey_present holdings mint _ (by simp [hfound])
  · intro habsent
    have hset := setKey_absent holdings mint
      { tokenMint := mint, amountLamports := amt, solSpentLamports := spent
        buyTxSignature := sig, monitoredWallet := wallet, timestamp := now
        tokenSymbol := sym, tokenDecimals := decs } habsent
    simp only [addOrUpdateHolding, habsent, hset]

def holdingM0 : BotHolding :=
  { tokenMint := "MINTM", amountLamports := "1000", solSpentLamports := "500"
    buyTxSignature := "tx1", monitoredWallet := "w1", timestamp := 111
    tokenSymbol := "TKN", tokenDecimals := 6 }

def holdingM1 : BotHolding :=
  { tokenMint := "MINTM", amountLamports := "3000", solSpentLamports := "800"
    buyTxSignature := "tx2", monitoredWallet := "w2", timestamp := 222
    tokenSymbol := "TKN", tokenDecimals := 6 }

/-- C4 witness: amounts `"1000"` then `"2000"` merge to `"3000"`, spends
`"500"` then `"300"` to `"800"`, with exactly one entry for the mint;
the ledger written to disk is the full resulting map. -/
theorem addOrUpdateHolding_accumulates_witness :
    addOrUpdateHolding [("MINTM", holdingM0)] "MINTM" "2000" "300" "tx2" "w2" "TKN" 6 222 =
      .ok ([("MINTM", holdingM1)], [[("MINTM", holdingM1)]]) ∧
    countKey [("MINTM", holdingM1)] "MINTM" = 1 := by
  have happ := (addOrUpdateHolding_accumulates [("MINTM", holdingM0)] "MINTM" "2000" "300"
      "tx2" "w2" "TKN" 6 222).1 holdingM0 1000 2000 500 300
      (by decide) (by decide) (by decide) (by decide) (by decide)
  exact ⟨happ.1.trans (by decide), by decide⟩

/-- C9: merging into an existing entry only changes amount, spend,
signature, wallet and timestamp; `tokenMint`, `tokenSymbol` and
`tokenDecimals` keep the values from the first buy whatever symbol and
decimals are passed, and every other key of the ledger is unchanged. -/
theorem addOrUpdateHolding_frame (holdings : Ledger) (mint amt spent sig wallet sym : String)
    (decs : Nat) (now : Int) (h : BotHolding) (a b c d : Int)
    (hfound : getKey? holdings mint = some h)
    (ha : parseBigInt h.amountLamports = some a) (hb : parseBigInt amt = some b)
    (hc : parseBigInt h.solSpentLamports = some c) (hd : parseBigInt spent = some d) :
    (let u : BotHolding :=
      { h with amountLamports := bigIntToString (a + b)
               solSpentLamports := bigIntToString (c + d)
               buyTxSignature := sig
               monitoredWallet := wallet
               timestamp := now }
     addOrUpdateHolding holdings mint amt spent sig wallet sym decs now =
        .ok (setKey holdings mint u, [setKey holdings mint u]) ∧
     u.tokenMint = h.tokenMint ∧ u.tokenSymbol = h.tokenSymbol ∧
     u.tokenDecimals = h.tokenDecimals ∧
     getKey? (setKey holdings mint u) mint = some u ∧
     ∀ k, k ≠ mint → getKey? (setKey holdings mint u) k = getKey? holdings k) := by
  refine ⟨?_, rfl, rfl, rfl, getKey?_setKey_self _ _ _, ?_⟩
  · simp only [addOrUpdateHolding, hfound, ha, hb, hc, hd]
  · intro k hk
    exact getKey?_setKey_ne holdings mint k _ hk

def holdingN0 : BotHolding :=
  { tokenMint := "MINTN", amountLamports := "7", solSpentLamports := "8"
    buyTxSignature := "tx9", monitoredWallet := "w9", timestamp := 999
    tokenSymbol := "NNN", tokenDecimals := 2 }

/-- C9 witness: updating `MINTM` with a different symbol (`"OTHER"`) and
decimals (`9`) keeps the stored symbol/decimals from the first buy and
leaves the `MINTN` entry untouched. -/
theorem addOrUpdateHolding_frame_witness :
    (let u : BotHolding :=
      { holdingM0 with amountLamports := bigIntToString ((1000 : Int) + 2000)
                       solSpentLamports := bigIntToString ((500 : Int) + 300)
                       buyTxSignature := "tx2"
                       monitoredWallet := "w2"
                       timestamp := 222 }
     addOrUpdateHolding [("MINTM", holdingM0), ("MINTN", holdingN0)] "MINTM"
        "2000" "300" "tx2" "w2" "OTHER" 9 222 =
        .ok (setKey [("MINTM", holdingM0), ("MINTN", holdingN0)] "MINTM" u,
             [setKey [("MINTM", holdingM0), ("MINTN", holdingN0)] "MINTM" u]) ∧
     u.tokenMint = holdingM0.tokenMint ∧ u.tokenSymbol = holdingM0.tokenSymbol ∧
     u.tokenDecimals = holdingM0.tokenDecimals ∧
     getKey? (setKey [("MINTM", holdingM0), ("MINTN", holdingN0)] "MINTM" u) "MINTM" = some u ∧
     ∀ k, k ≠ "MINTM" →
       getKey? (setKey [("MINTM", holdingM0), ("MINTN", holdingN0)] "MINTM" u) k =
         getKey? [("MINTM", holdingM0), ("MINTN", holdingN0)] k) :=
  addOrUpdateHolding_frame [("MINTM", holdingM0), ("MINTN", holdingN0)] "MINTM"
    "2000" "300" "tx2" "w2" "OTHER" 9 222 holdingM0 1000 2000 500 300
    (by decide) (by decide) (by decide) (by decide) (by decide)

/-! ## Claim C5 -/

/-- C5: for a detected sell whose mint has no ledger entry, the
engine produces a failed result with an explanatory error and performs
no external call at all (in particular neither the quote nor the swap
endpoint), leaving the ledger unchanged. -/
theorem processCopyTrade_sell_without_holding (env : EngineEnv) (holdings : Ledger)
    (t : DetectedTrade) (cfg : ConfigData) (ts now : Int)
    (hsell : t.type = "sell") (hnone : getKey? holdings t.tokenMint = none) :
    (processCopyTrade env holdings t cfg ts now).1.success = false ∧
    (processCopyTrade env holdings t cfg ts now).1.error.isSome = true ∧
    (processCopyTrade env holdings t cfg ts now).2.1 = [] ∧
    (processCopyTrade env holdings t cfg ts now).2.2 = holdings := by
  simp only [processCopyTrade]
  cases hv : validateTrade t cfg with
  | some e => simp [failedCopyResult]
  | none =>
      cases hw : env.loadWallet cfg.botWalletPrivateKey with
      | error e => simp [failedCopyResult]
      | ok w => simp [hsell, executeSellTrade, hnone, failedCopyResult]

def tokenInfoX : TokenInfo := { mint := "MintX11111", symbol := "MintX111", decimals := 6 }

def env0 : EngineEnv :=
  { loadWallet := fun _ => .ok "BotWalletPubkey"
    tokenBalance := fun _ => 0
    getQuote := fun _ _ _ _ => none
    getSwap := fun _ _ => none
    execTx := fun _ => .error "boom" }

def cfgSample : ConfigData :=
  { rpcEndpointUrl := "", botWalletPrivateKey := "key", copyTradeAmountSol := mkRat 1 10
    slippagePercentage := 30, monitoredWalletAddresses := "", manageWithSltp := true
    takeProfitPercentage := none, stopLossPercentage := none, priceCheckIntervalSeconds := none }

def tradeSellX : DetectedTrade :=
  { type := "sell", tokenInfo := tokenInfoX, tokenMint := "MintX11111"
    currencyMint := WSOL_MINT, currencySymbol := "SOL", tokenAmount := 100
    currencyAmount := 1, originalTxSignature := "sig0", monitoredWallet := "W" }

/-- C5 witness: a sell of a mint absent from an empty ledger fails
without any external call. -/
theorem processCopyTrade_sell_without_holding_witness :
    (processCopyTrade env0 [] tradeSellX cfgSample 5 6).1.success = false ∧
    (processCopyTrade env0 [] tradeSellX cfgSample 5 6).1.error.isSome = true ∧
    (processCopyTrade env0 [] tradeSellX cfgSample 5 6).2.1 = [] :=
  ⟨(processCopyTrade_sell_without_holding env0 [] tradeSellX cfgSample 5 6 rfl rfl).1,
   (processCopyTrade_sell_without_holding env0 [] tradeSellX cfgSample 5 6 rfl rfl).2.1,
   (processCopyTrade_sell_without_holding env0 [] tradeSellX cfgSample 5 6 rfl rfl).2.2.1⟩

/-! ## Claim C7 -/

/-- C7: `loadHoldings` never errors: a missing file, a failed read,
blank contents, a parse failure, and even a parsed `null` (whose
`Object.entries` throws into the outer catch) all yield the empty
ledger; and records are validated independently, so an object with one
well-formed and one schema-invalid record loads exactly the well-formed
one, in either order. -/
theorem loadHoldings_fail_open (k1 k2 : String) (h1 h2 : Json) (_hk : k1 ≠ k2)
    (hv1 : validateHolding h1 = true) (hv2 : validateHolding h2 = false) :
    loadHoldings .missingFile = [] ∧
    loadHoldings .readError = [] ∧
    loadHoldings .blankFile = [] ∧
    loadHoldings .unparseable = [] ∧
    loadHoldings (.parsed .null) = [] ∧
    loadHoldings (.parsed (.obj [(k1, h1), (k2, h2)])) = [(k1, h1)] ∧
    loadHoldings (.parsed (.obj [(k2, h2), (k1, h1)])) = [(k1, h1)] := by
  refine ⟨rfl, rfl, rfl, rfl, rfl, ?_, ?_⟩
  · simp [loadHoldings, objectEntries, hv1, hv2, setKey]
  · simp [loadHoldings, objectEntries, hv1, hv2, setKey]

def validHoldingJson : Json := .obj
  [("tokenMint", .str "MINTM"), ("amountLamports", .str "1000"),
   ("solSpentLamports", .str "500"), ("buyTxSignature", .str "tx1"),
   ("monitoredWallet", .str "w1"), ("timestamp", .num 111),
   ("tokenSymbol", .str "TKN"), ("tokenDecimals", .num 6)]

/-- C7 witness: one well-formed record and one record that is a bare
number; only the well-formed one is loaded. -/
theorem loadHoldings_fail_open_witness :
    validateHolding validHoldingJson = true ∧
    validateHolding (.num 5) = false ∧
    loadHoldings (.parsed (.obj [("A", validHoldingJson), ("B", .num 5)])) =
      [("A", validHoldingJson)] :=
  ⟨by decide, by decide,
   (loadHoldings_fail_open "A" "B" validHoldingJson (.num 5) (by decide) (by decide)
      (by decide)).2.2.2.2.2.1⟩

/-! ## Claim C10 -/

theorem getTokenInfo_preserves (tokenCache : List (String × TokenInfo)) (m m' : String)
    (l : Option Nat) (t : TokenInfo) (h : getKey? tokenCache m = some t) :
    getKey? (getTokenInfo tokenCache m' l).2 m = some t := by
  unfold getTokenInfo
  cases hc : getKey? tokenCache m' with
  | some _ => simpa [hc]
  | none =>
      have hne : m ≠ m' := by
        intro he
        rw [he, hc] at h
        cases h
      cases l with
      | some d =>
          simp only [hc]
          rw [getKey?_setKey_ne _ _ _ _ hne]
          exact h
      | none =>
          simp only [hc]
          rw [getKey?_setKey_ne _ _ _ _ hne]
          exact h

theorem runTokenInfoCalls_preserves (calls : List (String × Option Nat))
    (tokenCache : List (String × TokenInfo)) (m : String) (t : TokenInfo)
    (h : getKey? tokenCache m = some t) :
    getKey? (runTokenInfoCalls tokenCache calls).2 m = some t := by
  induction calls generalizing tokenCache with
  | nil => exact h
  | cons c rest ih =>
      simp only [runTokenInfoCalls]
      exact ih _ (getTokenInfo_preserves _ _ _ _ _ h)

theorem getTokenInfo_caches (tokenCache : List (String × TokenInfo)) (m : String)
    (l : Option Nat) :
    getKey? (getTokenInfo tokenCache m l).2 m = some (getTokenInfo tokenCache m l).1 := by
  unfold getTokenInfo
  cases hc : getKey? tokenCache m with
  | some t => simp [hc]
  | none => cases l <;> simp [hc, getKey?_setKey_self]

/-- C10: token metadata is memoized per session, failures included: a
later `getTokenInfo` call for the same mint returns the same `TokenInfo`
as the first, whatever calls for other mints happen in between and
whatever a fresh on-chain lookup would now return; and when the first
lookup fails, the cached value is the fallback with the first 8
characters of the mint as symbol and 6 decimals. -/
theorem getTokenInfo_memoized (tokenCache : List (String × TokenInfo)) (mint : String)
    (l1 l2 : Option Nat) (mid : List (String × Option Nat)) :
    (getTokenInfo (runTokenInfoCalls (getTokenInfo tokenCache mint l1).2 mid).2 mint l2).1 =
      (getTokenInfo tokenCache mint l1).1 ∧
    (getKey? tokenCache mint = none → l1 = none →
      (getTokenInfo tokenCache mint l1).1 =
        { mint := mint, symbol := jsSlice0 mint 8, decimals := 6 }) := by
  constructor
  · have h1 := getTokenInfo_caches tokenCache mint l1
    have h2 := runTokenInfoCalls_preserves mid (getTokenInfo tokenCache mint l1).2 mint
      (getTokenInfo tokenCache mint l1).1 h1
    conv_lhs => rw [getTokenInfo.eq_def]
    rw [h2]
  · intro hc hl
    subst hl
    simp [getTokenInfo, hc]

/-- C10 witness: a failed first lookup for a mint caches the fallback;
after an unrelated call, a second call whose fresh lookup would succeed
with 2 decimals still returns the cached fallback. -/
theorem getTokenInfo_memoized_witness :
    (getTokenInfo (runTokenInfoCalls (getTokenInfo [] "MintXabcdef" none).2
        [("Other", some 9)]).2 "MintXabcdef" (some 2)).1 =
      (getTokenInfo [] "MintXabcdef" none).1 ∧
    (getTokenInfo [] "MintXabcdef" none).1 =
      { mint := "MintXabcdef", symbol := jsSlice0 "MintXabcdef" 8, decimals := 6 } :=
  ⟨(getTokenInfo_memoized [] "MintXabcdef" none (some 2) [("Other", some 9)]).1,
   (getTokenInfo_memoized [] "MintXabcdef" none (some 2) [("Other", some 9)]).2 rfl rfl⟩

/-! ## Claim C2 -/

/-- C2: `processCopyTrade` is a total function returning a
`CopyTradeResult` (its `try`/`catch` converts every thrown error into a
failed result — totality of the model), and whenever any validation
check fails (bad kind, non-positive token or currency amount, missing
signing key, or non-positive configured buy size for a buy), the result
is the validation failure: `success = false` with the corresponding
descriptive error, no external call, no ledger change. -/
theorem processCopyTrade_validation_failures (env : EngineEnv) (holdings : Ledger)
    (t : DetectedTrade) (cfg : ConfigData) (ts now : Int) :
    (((t.type ≠ "buy" ∧ t.type ≠ "sell") ∨ t.tokenAmount ≤ 0 ∨ t.currencyAmount ≤ 0 ∨
        jsTrim cfg.botWalletPrivateKey = "" ∨
        (t.type = "buy" ∧ cfg.copyTradeAmountSol ≤ 0)) →
      ∃ e, validateTrade t cfg = some e) ∧
    (∀ e, validateTrade t cfg = some e →
      processCopyTrade env holdings t cfg ts now =
        (failedCopyResult t e ts, [], holdings) ∧
      (failedCopyResult t e ts).success = false ∧
      (failedCopyResult t e ts).error = some e) := by
  constructor
  · intro hcond
    unfold validateTrade
    split_ifs with h1 h2 h3 h4 h5
    · exact ⟨_, rfl⟩
    · exact ⟨_, rfl⟩
    · exact ⟨_, rfl⟩
    · exact ⟨_, rfl⟩
    · exact ⟨_, rfl⟩
    · rcases hcond with h | h | h | h | h
      exacts [absurd h h1, absurd h h2, absurd h h3, absurd h h4, absurd h h5]
  · intro e he
    refine ⟨?_, rfl, rfl⟩
    simp only [processCopyTrade, he]

def tradeZeroAmount : DetectedTrade :=
  { type := "buy", tokenInfo := tokenInfoX, tokenMint := "MintX11111"
    currencyMint := WSOL_MINT, currencySymbol := "SOL", tokenAmount := 0
    currencyAmount := 1, originalTxSignature := "sig0", monitoredWallet := "W" }

/-- C2 witness: a buy with `tokenAmount = 0` fails validation and yields
the corresponding failed result without reaching any external call. -/
theorem processCopyTrade_validation_failures_witness :
    validateTrade tradeZeroAmount cfgSample = some "Invalid token amount" ∧
    processCopyTrade env0 [] tradeZeroAmount cfgSample 5 6 =
      (failedCopyResult tradeZeroAmount "Invalid token amount" 5, [], []) :=
  ⟨by decide,
   ((processCopyTrade_validation_failures env0 [] tradeZeroAmount cfgSample 5 6).2
      "Invalid token amount" (by decide)).1⟩

/-! ## Claim C6 -/

/-- The binary64 double nearest to 0.29, as an exact rational:
5224175567749775 / 2^54. -/
def double029 : Rat := mkRat 5224175567749775 18014398509481984

def cfg29 : ConfigData :=
  { rpcEndpointUrl := "", botWalletPrivateKey := "key"
    copyTradeAmountSol := double029
    slippagePercentage := mkRat 3 10
    monitoredWalletAddresses := "", manageWithSltp := true
    takeProfitPercentage := none, stopLossPercentage := none
    priceCheckIntervalSeconds := none }

def tradeBuyX : DetectedTrade :=
  { type := "buy", tokenInfo := tokenInfoX, tokenMint := "MintX11111"
    currencyMint := WSOL_MINT, currencySymbol := "SOL", tokenAmount := 100
    currencyAmount := 1, originalTxSignature := "sig0", monitoredWallet := "W" }

/-- C6 counterexample: with the configured buy size equal to the
binary64 double nearest 0.29 SOL, the code computes
`Math.floor(copyTradeAmountSol * 1e9)` in float64 and sends 290000000
lamports to the quote endpoint, while the floor of the exact product is
289999999 — the smallest-unit spend is not computed under exact
arithmetic. -/
theorem executeBuyTrade_float_counterexample :
    (executeBuyTrade env0 [] tradeBuyX cfg29 "W" 5 6).2.1 =
      [.quote WSOL_MINT "MintX11111" 290000000 30] ∧
    (qmul cfg29.copyTradeAmountSol (mkRat 1000000000 1)).floor = 289999999 ∧
    ¬ (290000000 : Int) = 289999999 := by
  decide

/-- C6 (amended): for every config, the smallest-unit spend sent to the
quote endpoint equals `Math.floor` of the correctly-rounded binary64
product `copyTradeAmountSol × 1e9`, and the slippage basis points equal
`Math.floor` of the binary64 product `slippagePercentage × 100` — the
floors of float64 products, which need not coincide with the exact
floors. -/
theorem executeBuyTrade_quote_amounts (env : EngineEnv) (holdings : Ledger)
    (t : DetectedTrade) (cfg : ConfigData) (botWallet : String) (ts now : Int) :
    (executeBuyTrade env holdings t cfg botWallet ts now).2.1.head? =
      some (.quote WSOL_MINT t.tokenMint
        (jsMathFloor (fl64 (qmul cfg.copyTradeAmountSol (mkRat 1000000000 1))))
        (jsMathFloor (fl64 (qmul cfg.slippagePercentage (mkRat 100 1))))) := by
  simp only [executeBuyTrade]
  split
  · rfl
  · split
    · rfl
    · split
      · rfl
      · rfl

/-! ## Claim C3 -/

theorem findTradeMint_eq_find? (preMap postMap : List (String × Rat)) (c : Rat)
    (mints : List String) :
    findTradeMint preMap postMap c mints =
      (mints.find? (fun mint =>
        mint ≠ WSOL_MINT &&
        tokenDustThreshold < qabs (mintDelta preMap postMap mint) &&
        amendedSignConsistent c (mintDelta preMap postMap mint))).map
        (fun mint => (mint, mintDelta preMap postMap mint,
          decide (0 < mintDelta preMap postMap mint ∧ c < qneg solThreshold))) := by
  induction mints with
  | nil => rfl
  | cons mint rest ih =>
      simp only [findTradeMint, List.find?]
      by_cases hw : mint = WSOL_MINT
      · simp [hw, ih]
      · by_cases hd : tokenDustThreshold < qabs (mintDelta preMap postMap mint)
        · by_cases hcons : (0 < mintDelta preMap postMap mint ∧ c < qneg solThreshold) ∨
              (mintDelta preMap postMap mint < 0 ∧ solThreshold < c)
          · simp [hw, hd, amendedSignConsistent, hcons]
          · simp [hw, hd, amendedSignConsistent, hcons, ih]
        · simp [hw, hd, amendedSignConsistent, ih]

def defaultTokenInfoOf : String → TokenInfo :=
  fun m => { mint := m, symbol := jsSlice0 m 8, decimals := 6 }

def buyExampleTx : ParsedTx :=
  { signatures := ["sig1"]
    accountKeys := some ["W"]
    preBalances := some [0]
    postBalances := some [0]
    preTokenBalances := some
      [{ mint := WSOL_MINT, owner := some "W", uiAmount := some (mkRat 5 2) }]
    postTokenBalances := some
      [{ mint := WSOL_MINT, owner := some "W", uiAmount := some (mkRat 3 2) },
       { mint := "MintX11111", owner := some "W", uiAmount := some 100 }] }

def buyExampleTrade : DetectedTrade :=
  { type := "buy", tokenInfo := defaultTokenInfoOf "MintX11111", tokenMint := "MintX11111"
    currencyMint := WSOL_MINT, currencySymbol := "WSOL", tokenAmount := 100
    currencyAmount := 1, originalTxSignature := "sig1", monitoredWallet := "W" }

theorem classifyTail_eq (preMap postMap : List (String × Rat)) (mints : List String)
    (c : Rat) (sym sig w : String) (env : String → TokenInfo) :
    (if qabs c < solThreshold then (Except.ok none : Except String (Option DetectedTrade))
     else
       match findTradeMint preMap postMap c mints with
       | none => .ok none
       | some (mint, tokenChange, isBuy) =>
           .ok (some { type := if isBuy = true then "buy" else "sell"
                       tokenInfo := env mint
                       tokenMint := mint
                       currencyMint := WSOL_MINT
                       currencySymbol := sym
                       tokenAmount := qabs tokenChange
                       currencyAmount := qabs c
                       originalTxSignature := sig
                       monitoredWallet := w })) =
    (if qabs c < solThreshold then .ok none
     else
       match mints.find? (fun mint =>
           mint ≠ WSOL_MINT &&
           tokenDustThreshold < qabs (mintDelta preMap postMap mint) &&
           amendedSignConsistent c (mintDelta preMap postMap mint)) with
       | none => .ok none
       | some mint =>
           .ok (some { type := if 0 < mintDelta preMap postMap mint then "buy" else "sell"
                       tokenInfo := env mint
                       tokenMint := mint
                       currencyMint := WSOL_MINT
                       currencySymbol := sym
                       tokenAmount := qabs (mintDelta preMap postMap mint)
                       currencyAmount := qabs c
                       originalTxSignature := sig
                       monitoredWallet := w })) := by
  by_cases hb : qabs c < solThreshold
  · simp [hb]
  simp only [if_neg hb]
  rw [findTradeMint_eq_find?]
  cases hfind : mints.find? (fun mint =>
      mint ≠ WSOL_MINT &&
      tokenDustThreshold < qabs (mintDelta preMap postMap mint) &&
      amendedSignConsistent c (mintDelta preMap postMap mint)) with
  | none => simp
  | some mint =>
      have hp := List.find?_some hfind
      simp only [amendedSignConsistent, Bool.and_eq_true, decide_eq_true_eq] at hp
      obtain ⟨⟨hw1, hd1⟩, hcons⟩ := hp
      rcases hcons with ⟨h1, h2⟩ | ⟨h1, h2⟩
      · simp [h1, h2]
      · have hn1 : ¬ (0 < mintDelta preMap postMap mint) := asymm h1
        have hn : ¬ (0 < mintDelta preMap postMap mint ∧ c < qneg solThreshold) :=
          fun hh => hn1 hh.1
        simp [hn, hn1]

/-- C3 (amended): `analyzeTrade` coincides, on every transaction, with
the step 3-5 rule of the specification amended in one point: a reported
mint must oppose a currency change strictly beyond the 1e-5 threshold
(below `-1e-5` for a buy, above `1e-5` for a sell), not merely of
opposite sign; a chosen currency change of magnitude exactly 1e-5
therefore yields no trade.  In particular, a transaction whose
wrapped-native balance drops by 1.0 while mint X rises by 100
classifies as a buy with tokenAmount 100 and currencyAmount 1.0. -/
theorem analyzeTrade_matches_amended_spec :
    (∀ (tx : Option ParsedTx) (w : String) (env : String → TokenInfo),
      analyzeTrade tx w env = classifyAmendedC3 tx w env) ∧
    analyzeTrade (some buyExampleTx) "W" defaultTokenInfoOf = .ok (some buyExampleTrade) := by
  constructor
  · intro tx w env
    rcases tx with _ | ⟨sigs, keys, preB, postB, preTB, postTB⟩
    · rfl
    rcases preTB with _ | preTB <;> rcases postTB with _ | postTB <;>
      rcases preB with _ | preB <;> rcases postB with _ | postB <;>
      rcases keys with _ | keys <;> rcases sigs with _ | ⟨sig, sigs⟩ <;>
      try rfl
    simp only [analyzeTrade, classifyAmendedC3, classifyWithConsistency, List.head?_cons]
    by_cases hsig : sig = ""
    · simp [hsig]
    simp only [hsig, if_false]
    rcases hIdx : keys.findIdx? (fun key => decide (key = w)) with _ | idx <;>
      simp only [hIdx]
    · exact classifyTail_eq _ _ _ _ _ _ _ _
    · rcases hpre : preB.get? idx with _ | preBal <;>
        rcases hpost : postB.get? idx with _ | postBal <;>
        simp only [hpre, hpost]
      all_goals
        first
          | rfl
          | exact classifyTail_eq _ _ _ _ _ _ _ _
  · decide

def boundaryTx : ParsedTx :=
  { signatures := ["sigB"]
    accountKeys := some ["W"]
    preBalances := some [5]
    postBalances := some [5]
    preTokenBalances := some
      [{ mint := WSOL_MINT, owner := some "W", uiAmount := some (mkRat 100001 100000) }]
    postTokenBalances := some
      [{ mint := WSOL_MINT, owner := some "W", uiAmount := some 1 },
       { mint := "MintX11111", owner := some "W", uiAmount := some 100 }] }

/-- C3 counterexample: a transaction whose wrapped-SOL delta is exactly
-1e-5, the dust threshold itself.  The chosen currency change is not
below the threshold, and mint X rises by 100 with the sign pattern of a
buy, so the rule as claimed reports a buy; the code returns no trade,
because its buy test additionally requires the currency change to lie
strictly beyond the threshold. -/
theorem analyzeTrade_spec_counterexample :
    analyzeTrade (some boundaryTx) "W" defaultTokenInfoOf = .ok none ∧
    classifySpecC3 (some boundaryTx) "W" defaultTokenInfoOf ≠ .ok none ∧
    analyzeTrade (some boundaryTx) "W" defaultTokenInfoOf ≠
      classifySpecC3 (some boundaryTx) "W" defaultTokenInfoOf := by
  decide
